import Mathlib

/-!
Verification model of the OpenEvidenceClone medical-literature search service.

The Python sources are shallowly embedded:
* `src/services/parallel_search.py` : the search client (`search_medical_literature`,
  `_determine_source_type`), with the HTTP layer abstracted as an oracle function.
* `src/services/openai_service.py` : the enrichment client (`generate_medical_summary`,
  `assess_medical_credibility`), with the chat-completion call and the JSON parse
  abstracted as oracle functions; each embedded function additionally returns the
  list of chat requests it issued so that call behaviour is observable.
* `src/app.py` : the per-result enrichment loops of the `search` and `api_search`
  routes, with the two enrichment calls abstracted as possibly-raising functions
  (`Except String String`), reflecting the defensive `try/except` around them.

Python strings are modelled by `String` (a slice `s[:n]` is `List.take n` on the
character list, `str.lower` maps `Char.toLower` over the characters, `in` on
strings is contiguous-substring containment, `str.strip` is `String.trim`).
JSON numbers are modelled by `ℚ`.
-/

/-- Model of the Python substring test `needle in hay` on lists of characters:
true iff `needle` occurs contiguously in the list. -/
def listIsInfixOf (needle : List Char) : List Char → Bool
  | [] => List.isPrefixOf needle []
  | c :: rest => List.isPrefixOf needle (c :: rest) || listIsInfixOf needle rest

/-- Model of the Python expression `pat in hay` for strings. -/
def strContains (hay pat : String) : Bool :=
  listIsInfixOf pat.data hay.data

/-- Model of Python `str.lower` (ASCII case folding, as used on URLs). -/
def lowerStr (s : String) : String :=
  ⟨s.data.map Char.toLower⟩

/-- Display truncation from `src/app.py` lines 64 and 77:
`result['content'][:500] + '...' if len(result['content']) > 500 else result['content']`. -/
def truncateContent (s : String) : String :=
  if s.length > 500 then String.mk (s.data.take 500) ++ "..." else s

/-- The fixed domain-to-label table of `_determine_source_type`
(`src/services/parallel_search.py` lines 101-115), in source (insertion) order. -/
def medical_domains : List (String × String) :=
  [("pubmed.ncbi.nlm.nih.gov", "PubMed"),
   ("nejm.org", "NEJM"),
   ("jamanetwork.com", "JAMA"),
   ("thelancet.com", "The Lancet"),
   ("bmj.com", "BMJ"),
   ("nature.com", "Nature"),
   ("science.org", "Science"),
   ("cochranelibrary.com", "Cochrane"),
   ("uptodate.com", "UpToDate"),
   ("who.int", "WHO"),
   ("cdc.gov", "CDC"),
   ("nih.gov", "NIH"),
   ("mayoclinic.org", "Mayo Clinic")]

/-- The `for domain, source_name in medical_domains.items()` loop: return the label
of the first table entry whose domain occurs in the lowered URL. -/
def findSourceType (url_lower : String) : List (String × String) → Option String
  | [] => none
  | (domain, source_name) :: rest =>
    if strContains url_lower domain then some source_name else findSourceType url_lower rest

/-- Embedding of `_determine_source_type` (`src/services/parallel_search.py` lines 99-122). -/
def determine_source_type (url : String) : String :=
  match findSourceType (lowerStr url) medical_domains with
  | some source_name => source_name
  | none => "Medical Literature"

/-! Basic facts about the helpers. -/

theorem findSourceType_eq_find? (u : String) (l : List (String × String)) :
    findSourceType u l = (l.find? (fun p => strContains u p.1)).map Prod.snd := by
  induction l with
  | nil => rfl
  | cons p rest ih =>
    obtain ⟨d, n⟩ := p
    by_cases h : strContains u d
    · simp [findSourceType, List.find?, h]
    · simp only [findSourceType, List.find?, h]
      simpa [h] using ih

theorem truncateContent_of_le (s : String) (h : s.length ≤ 500) :
    truncateContent s = s := by
  unfold truncateContent
  simp [Nat.not_lt.mpr h]

theorem string_length_data (s : String) : s.length = s.data.length := by
  obtain ⟨d⟩ := s
  rfl

theorem truncateContent_of_gt (s : String) (h : s.length > 500) :
    truncateContent s = String.mk (s.data.take 500) ++ "..." := by
  unfold truncateContent
  simp [h]

theorem truncateContent_data_of_gt (s : String) (h : s.length > 500) :
    (truncateContent s).data = s.data.take 500 ++ "...".data := by
  rw [truncateContent_of_gt s h]
  rfl

theorem take_500_length (s : String) (h : s.length > 500) :
    (s.data.take 500).length = 500 := by
  rw [List.length_take]
  rw [string_length_data] at h
  exact Nat.min_eq_left (Nat.le_of_lt h)

theorem truncateContent_length_of_gt (s : String) (h : s.length > 500) :
    (truncateContent s).length = 503 := by
  rw [string_length_data, truncateContent_data_of_gt s h, List.length_append,
      take_500_length s h]
  rfl

theorem truncateContent_idem (s : String) :
    truncateContent (truncateContent s) = truncateContent s := by
  by_cases h : s.length > 500
  · have hlen : (truncateContent s).length = 503 := truncateContent_length_of_gt s h
    rw [truncateContent_of_gt (truncateContent s) (by rw [hlen]; norm_num),
        truncateContent_data_of_gt s h]
    rw [truncateContent_of_gt s h]
    have htake : (s.data.take 500 ++ "...".data).take 500 = s.data.take 500 :=
      List.take_left' (take_500_length s h)
    rw [htake]
  · rw [truncateContent_of_le s (Nat.not_lt.mp h), truncateContent_of_le s (Nat.not_lt.mp h)]

/-- C4: the display content truncation is idempotent and length-exact: a content
string of length at most 500 is unchanged; one of length above 500 becomes exactly
its first 500 characters followed by the fixed `"..."` marker (total length 503);
and truncating the output again changes nothing. -/
theorem C4_truncation_idempotent_length_exact (s : String) :
    (s.length ≤ 500 → truncateContent s = s)
    ∧ (s.length > 500 →
        (truncateContent s).data = s.data.take 500 ++ "...".data
        ∧ (s.data.take 500).length = 500
        ∧ (truncateContent s).length = 503)
    ∧ truncateContent (truncateContent s) = truncateContent s :=
  ⟨truncateContent_of_le s,
   fun h => ⟨truncateContent_data_of_gt s h, take_500_length s h,
             truncateContent_length_of_gt s h⟩,
   truncateContent_idem s⟩

/-- A 501-character string used to exercise the truncation branch. -/
def longContent : String := String.mk (List.replicate 501 'a')

set_option maxRecDepth 4096 in
/-- Witness for C4 at concrete inputs: the short string is unchanged, the
501-character string is cut to length 503, and truncation is idempotent there. -/
theorem C4_truncation_idempotent_length_exact_witness :
    truncateContent "abc" = "abc"
    ∧ (truncateContent longContent).length = 503
    ∧ truncateContent (truncateContent longContent) = truncateContent longContent :=
  ⟨(C4_truncation_idempotent_length_exact "abc").1 (by decide),
   ((C4_truncation_idempotent_length_exact longContent).2.1 (by decide)).2.2,
   (C4_truncation_idempotent_length_exact longContent).2.2⟩

set_option maxRecDepth 4096 in
/-- C5: source_type derivation is a pure function of the URL: when some known
medical-publisher domain occurs (case-insensitively) in the URL, the label mapped
to the first such domain of the fixed table is returned; when no domain matches,
the generic label is returned; the two documented examples evaluate as stated. -/
theorem C5_source_type_derivation (url : String) :
    (∀ p, (medical_domains.find? (fun q => strContains (lowerStr url) q.1)) = some p →
        p ∈ medical_domains ∧ strContains (lowerStr url) p.1 = true
        ∧ determine_source_type url = p.2)
    ∧ ((∀ p ∈ medical_domains, strContains (lowerStr url) p.1 = false) →
        determine_source_type url = "Medical Literature")
    ∧ ((∃ p ∈ medical_domains, strContains (lowerStr url) p.1 = true) →
        ∃ p ∈ medical_domains, strContains (lowerStr url) p.1 = true
          ∧ determine_source_type url = p.2)
    ∧ determine_source_type "https://pubmed.ncbi.nlm.nih.gov/12345" = "PubMed"
    ∧ determine_source_type "https://example.com/article" = "Medical Literature" := by
  refine ⟨?_, ?_, ?_, by decide, by decide⟩
  · intro p hp
    refine ⟨List.mem_of_find?_eq_some hp, by simpa using List.find?_some hp, ?_⟩
    unfold determine_source_type
    rw [findSourceType_eq_find?, hp]
    rfl
  · intro hall
    unfold determine_source_type
    rw [findSourceType_eq_find?]
    have : medical_domains.find? (fun q => strContains (lowerStr url) q.1) = none := by
      rw [List.find?_eq_none]
      intro p hp
      simp [hall p hp]
    rw [this]
    rfl
  · intro hex
    have hsome : (medical_domains.find? (fun q => strContains (lowerStr url) q.1)).isSome := by
      rw [List.find?_isSome]
      obtain ⟨p, hp, hc⟩ := hex
      exact ⟨p, hp, by simp [hc]⟩
    obtain ⟨p, hp⟩ := Option.isSome_iff_exists.mp hsome
    refine ⟨p, List.mem_of_find?_eq_some hp, by simpa using List.find?_some hp, ?_⟩
    unfold determine_source_type
    rw [findSourceType_eq_find?, hp]
    rfl

/-- Witness for C5 at a concrete URL: the PubMed URL matches a known domain and
receives the first-match label. -/
theorem C5_source_type_derivation_witness :
    ∃ p ∈ medical_domains,
      strContains (lowerStr "https://pubmed.ncbi.nlm.nih.gov/12345") p.1 = true
      ∧ determine_source_type "https://pubmed.ncbi.nlm.nih.gov/12345" = p.2 :=
  (C5_source_type_derivation "https://pubmed.ncbi.nlm.nih.gov/12345").2.2.1
    ⟨("pubmed.ncbi.nlm.nih.gov", "PubMed"), by decide, by decide⟩

/-! Model of `src/services/openai_service.py`. The OpenAI chat-completion API is
abstracted as an oracle `ChatRequest → ChatOutcome`; an unconfigured client
(missing `OPENAI_API_KEY`) is `Option.none`. Each embedded method returns the
string result paired with the list of chat requests it issued, so that the
absence of an external call is observable. -/

/-- One chat-completion request, as assembled by the service methods. -/
structure ChatRequest where
  system : String
  user : String
  max_tokens : Nat
  temperature : ℚ
  json_mode : Bool
deriving DecidableEq

/-- Outcome of one chat-completion call: the call raises, or it returns a
message whose `content` field may be null (`none`). -/
inductive ChatOutcome where
  | failure (msg : String)
  | success (content : Option String)
deriving DecidableEq

/-- The OpenAI service: `self.client` is `None` when `OPENAI_API_KEY` is unset. -/
structure OpenAIService where
  client : Option (ChatRequest → ChatOutcome)

/-- Python slice `content[:3000]` used inside the summary prompt. -/
def take3000 (content : String) : String :=
  String.mk (content.data.take 3000)

/-- The optional context clause of the summary prompt (empty query context is
falsy in Python, so it yields the empty clause). -/
def summaryContextPrompt (query_context : String) : String :=
  if query_context = "" then ""
  else " in relation to the medical query about \x27" ++ query_context ++ "\x27"

/-- The user prompt of `generate_medical_summary` (lines 34-46): fixed
instructions around the first 3000 characters of the content. -/
def summaryPrompt (content query_context : String) : String :=
  "As a medical AI assistant, provide a concise clinical summary of the following medical content"
  ++ summaryContextPrompt query_context
  ++ ".\n\nFocus on:\n- Key clinical findings and evidence\n- Diagnostic criteria or treatment recommendations\n- Level of evidence and study quality\n- Clinical relevance for healthcare professionals\n- Any important contraindications or warnings\n\nMedical content:\n"
  ++ take3000 content
  ++ "\n\nProvide a clear, professional summary in 2-3 paragraphs suitable for healthcare professionals."

/-- The chat request issued by `generate_medical_summary` (lines 50-64). -/
def summaryRequest (content query_context : String) : ChatRequest :=
  { system := "You are a medical AI assistant helping healthcare professionals understand clinical evidence. Provide accurate, evidence-based summaries.",
    user := summaryPrompt content query_context,
    max_tokens := 400,
    temperature := 3/10,
    json_mode := false }

/-- Embedding of `generate_medical_summary` (`src/services/openai_service.py`
lines 17-71). Unconfigured client: fixed sentinel, no call. Call failure:
caught, fixed sentinel. Null or empty response content (falsy in Python):
the literal `"Summary unavailable"`. Otherwise the stripped response text. -/
def generate_medical_summary (svc : OpenAIService) (content : String)
    (query_context : String) : String × List ChatRequest :=
  match svc.client with
  | none => ("Summary unavailable - OpenAI service not configured", [])
  | some call =>
    let req := summaryRequest content query_context
    match call req with
    | ChatOutcome.failure _ => ("Summary unavailable due to processing error", [req])
    | ChatOutcome.success m =>
      let raw := match m with
        | none => "Summary unavailable"
        | some t => if t = "" then "Summary unavailable" else t
      (raw.trim, [req])

/-- Source fields read by `assess_medical_credibility` through `dict.get` with
default `''`. -/
structure SourceInfo where
  title : Option String
  url : Option String
  source_type : Option String

/-- Parsed JSON reply of the credibility assessment; each field may be absent
(read through `dict.get` with a default). JSON numbers are modelled by `ℚ`. -/
structure CredJson where
  credibility_level : Option String
  confidence : Option ℚ
deriving DecidableEq

/-- The user prompt of `assess_medical_credibility` (lines 91-104). -/
def credibilityPrompt (title url source_type : String) : String :=
  "Assess the medical credibility of this source for healthcare professionals:\n\nTitle: "
  ++ title ++ "\nURL: " ++ url ++ "\nSource Type: " ++ source_type
  ++ "\n\nProvide a credibility assessment considering:\n- Source reputation in medical field\n- Peer-review status\n- Editorial standards\n- Evidence level\n\nRespond with JSON in this format:\n\x7b\"credibility_level\": \"High/Medium/Low\", \"confidence\": 0.85, \"reasoning\": \"Brief explanation\"\x7d"

/-- The chat request issued by `assess_medical_credibility` (lines 108-123). -/
def credibilityRequest (src : SourceInfo) : ChatRequest :=
  { system := "You are a medical information specialist assessing source credibility for healthcare professionals.",
    user := credibilityPrompt (src.title.getD "") (src.url.getD "") (src.source_type.getD ""),
    max_tokens := 200,
    temperature := 1/5,
    json_mode := true }

/-- Round half to even, matching the rounding of Python float formatting on
ties that are exactly representable. -/
def roundHalfEven (q : ℚ) : ℤ :=
  if q - (⌊q⌋ : ℚ) < 1/2 then ⌊q⌋
  else if 1/2 < q - (⌊q⌋ : ℚ) then ⌊q⌋ + 1
  else if ⌊q⌋ % 2 = 0 then ⌊q⌋ else ⌊q⌋ + 1

/-- Model of the Python format spec used in `f"{confidence:.1%}"` at line 132:
the value times 100, printed with exactly one decimal digit. -/
def formatPercent1 (c : ℚ) : String :=
  toString (roundHalfEven (c * 100 * 10) / 10) ++ "."
    ++ toString (roundHalfEven (c * 100 * 10) % 10) ++ "%"

theorem roundHalfEven_intCast (n : ℤ) : roundHalfEven (n : ℚ) = n := by
  unfold roundHalfEven
  simp

theorem formatPercent1_85 : formatPercent1 (85/100) = "85.0%" := by
  have harg : (85/100 * 100 * 10 : ℚ) = ((850 : ℤ) : ℚ) := by norm_num
  unfold formatPercent1
  rw [harg, roundHalfEven_intCast]
  decide

theorem formatPercent1_half : formatPercent1 (1/2) = "50.0%" := by
  have harg : (1/2 * 100 * 10 : ℚ) = ((500 : ℤ) : ℚ) := by norm_num
  unfold formatPercent1
  rw [harg, roundHalfEven_intCast]
  decide

/-- Embedding of `assess_medical_credibility` (`src/services/openai_service.py`
lines 73-136). The `json.loads` parse is abstracted as the oracle `parse`;
a parse failure raises and is caught by the enclosing handler, yielding the
fixed sentinel. A null or empty response content is rejected by the
`if not content` guard with the same sentinel. -/
def assess_medical_credibility (svc : OpenAIService)
    (parse : String → Except String CredJson) (source_info : SourceInfo) :
    String × List ChatRequest :=
  match svc.client with
  | none => ("Credibility assessment unavailable", [])
  | some call =>
    let req := credibilityRequest source_info
    match call req with
    | ChatOutcome.failure _ => ("Credibility assessment unavailable", [req])
    | ChatOutcome.success none => ("Credibility assessment unavailable", [req])
    | ChatOutcome.success (some c) =>
      if c = "" then ("Credibility assessment unavailable", [req])
      else
        match parse c with
        | Except.error _ => ("Credibility assessment unavailable", [req])
        | Except.ok j =>
          let credibility_level := j.credibility_level.getD "Unknown"
          let confidence := j.confidence.getD (1/2)
          (credibility_level ++ " (" ++ formatPercent1 confidence ++ " confidence)", [req])

/-- C3: the enrichment operations are total (they always return a string, by
type) and degrade locally: an unconfigured client yields the fixed sentinel of
each operation without issuing any chat request; a failing chat call yields the
fixed failure sentinel of each operation; a null response or a failing JSON
parse in the credibility assessment yields its fixed sentinel. -/
theorem C3_enrichment_total_and_sentinels
    (svc : OpenAIService) (content query_context : String)
    (parse : String → Except String CredJson) (src : SourceInfo) :
    (svc.client = none →
        generate_medical_summary svc content query_context
          = ("Summary unavailable - OpenAI service not configured", [])
        ∧ assess_medical_credibility svc parse src
          = ("Credibility assessment unavailable", []))
    ∧ (∀ call, svc.client = some call →
        (∀ msg, call (summaryRequest content query_context) = ChatOutcome.failure msg →
          (generate_medical_summary svc content query_context).1
            = "Summary unavailable due to processing error")
        ∧ (∀ msg, call (credibilityRequest src) = ChatOutcome.failure msg →
          (assess_medical_credibility svc parse src).1
            = "Credibility assessment unavailable")
        ∧ (call (credibilityRequest src) = ChatOutcome.success none →
          (assess_medical_credibility svc parse src).1
            = "Credibility assessment unavailable")
        ∧ (∀ c e, call (credibilityRequest src) = ChatOutcome.success (some c) →
            parse c = Except.error e →
          (assess_medical_credibility svc parse src).1
            = "Credibility assessment unavailable")) := by
  constructor
  · intro hnone
    constructor
    · unfold generate_medical_summary
      rw [hnone]
    · unfold assess_medical_credibility
      rw [hnone]
  · intro call hsome
    refine ⟨?_, ?_, ?_, ?_⟩
    · intro msg hfail
      unfold generate_medical_summary
      rw [hsome]
      simp only [hfail]
    · intro msg hfail
      unfold assess_medical_credibility
      rw [hsome]
      simp only [hfail]
    · intro hnull
      unfold assess_medical_credibility
      rw [hsome]
      simp only [hnull]
    · intro c e hsucc hparse
      unfold assess_medical_credibility
      rw [hsome]
      simp only [hsucc]
      by_cases hc : c = ""
      · simp [hc]
      · simp [hc, hparse]

/-- An unconfigured enrichment service. -/
def svcUnconfigured : OpenAIService := ⟨none⟩

/-- A chat oracle whose every call raises. -/
def chatAlwaysFails : ChatRequest → ChatOutcome := fun _ => ChatOutcome.failure "boom"

/-- A service whose backing call always raises. -/
def svcFailing : OpenAIService := ⟨some chatAlwaysFails⟩

/-- A chat oracle that returns a fixed non-JSON reply. -/
def chatReturnsText : ChatRequest → ChatOutcome := fun _ => ChatOutcome.success (some "not json")

/-- A service whose backing call returns a fixed non-JSON reply. -/
def svcText : OpenAIService := ⟨some chatReturnsText⟩

/-- A JSON parse oracle that always fails. -/
def parseAlwaysFails : String → Except String CredJson := fun _ => Except.error "invalid json"

/-- A source record with every field absent. -/
def srcEmpty : SourceInfo := ⟨none, none, none⟩

/-- Witness for C3 at concrete inputs: the unconfigured service returns the
sentinels without issuing a request; a raising call and a failing parse each
return the fixed sentinels. -/
theorem C3_enrichment_total_and_sentinels_witness :
    (generate_medical_summary svcUnconfigured "some content" "q"
        = ("Summary unavailable - OpenAI service not configured", [])
      ∧ assess_medical_credibility svcUnconfigured parseAlwaysFails srcEmpty
        = ("Credibility assessment unavailable", []))
    ∧ (generate_medical_summary svcFailing "some content" "q").1
        = "Summary unavailable due to processing error"
    ∧ (assess_medical_credibility svcFailing parseAlwaysFails srcEmpty).1
        = "Credibility assessment unavailable"
    ∧ (assess_medical_credibility svcText parseAlwaysFails srcEmpty).1
        = "Credibility assessment unavailable" :=
  ⟨(C3_enrichment_total_and_sentinels svcUnconfigured "some content" "q"
      parseAlwaysFails srcEmpty).1 rfl,
   (((C3_enrichment_total_and_sentinels svcFailing "some content" "q"
      parseAlwaysFails srcEmpty).2 chatAlwaysFails rfl).1 "boom" rfl),
   (((C3_enrichment_total_and_sentinels svcFailing "some content" "q"
      parseAlwaysFails srcEmpty).2 chatAlwaysFails rfl).2.1 "boom" rfl),
   (((C3_enrichment_total_and_sentinels svcText "some content" "q"
      parseAlwaysFails srcEmpty).2 chatReturnsText rfl).2.2.2 "not json" "invalid json"
        rfl rfl)⟩

/-- C9: when the credibility call succeeds and the reply parses to level
`"High"` with confidence `0.85`, the formatted result is exactly the string
`"High (85.0% confidence)"`. -/
theorem C9_credibility_formatting
    (svc : OpenAIService) (call : ChatRequest → ChatOutcome)
    (parse : String → Except String CredJson) (src : SourceInfo) (c : String)
    (hsvc : svc.client = some call)
    (hcall : call (credibilityRequest src) = ChatOutcome.success (some c))
    (hne : c ≠ "")
    (hparse : parse c = Except.ok ⟨some "High", some (85/100)⟩) :
    (assess_medical_credibility svc parse src).1 = "High (85.0% confidence)" := by
  unfold assess_medical_credibility
  rw [hsvc]
  simp only [hcall, if_neg hne, hparse, Option.getD_some]
  rw [formatPercent1_85]
  decide

/-- A JSON parse oracle that always yields a High / 0.85 reply. -/
def parseHigh : String → Except String CredJson :=
  fun _ => Except.ok ⟨some "High", some (85/100)⟩

/-- Witness for C9: a concrete service and parse oracle produce exactly the
documented string. -/
theorem C9_credibility_formatting_witness :
    (assess_medical_credibility svcText parseHigh srcEmpty).1
      = "High (85.0% confidence)" :=
  C9_credibility_formatting svcText chatReturnsText parseHigh srcEmpty "not json"
    rfl rfl (by decide) rfl

/-- C10: missing fields of a syntactically valid credibility reply fall back to
defaults: level `"Unknown"` and confidence `0.5`, so an empty JSON object is
formatted as exactly `"Unknown (50.0% confidence)"`. -/
theorem C10_credibility_defaults
    (svc : OpenAIService) (call : ChatRequest → ChatOutcome)
    (parse : String → Except String CredJson) (src : SourceInfo) (c : String)
    (hsvc : svc.client = some call)
    (hcall : call (credibilityRequest src) = ChatOutcome.success (some c))
    (hne : c ≠ "")
    (hparse : parse c = Except.ok ⟨none, none⟩) :
    (assess_medical_credibility svc parse src).1 = "Unknown (50.0% confidence)" := by
  unfold assess_medical_credibility
  rw [hsvc]
  simp only [hcall, if_neg hne, hparse, Option.getD_none]
  rw [formatPercent1_half]
  decide

/-- A JSON parse oracle that always yields an empty JSON object. -/
def parseEmptyObject : String → Except String CredJson :=
  fun _ => Except.ok ⟨none, none⟩

/-- Witness for C10: a concrete service parsing an empty object yields exactly
the defaulted string. -/
theorem C10_credibility_defaults_witness :
    (assess_medical_credibility svcText parseEmptyObject srcEmpty).1
      = "Unknown (50.0% confidence)" :=
  C10_credibility_defaults svcText chatReturnsText parseEmptyObject srcEmpty "not json"
    rfl rfl (by decide) rfl

/-! Model of `src/services/parallel_search.py`. The `requests.post` call is
abstracted as an oracle `SearchPayload → HttpOutcome` (a status code with an
already-parsed JSON body, a timeout, or a low-level connection error). The
embedded function returns the result paired with the list of payloads actually
sent over the network. Every inner `raise Exception(m)` of the `try` block is
re-raised by the outer handler as `Exception(f"Search failed: {m}")`, so the
embedding produces the composed message directly; the timeout and
connection-error messages are raised from their own `except` clauses and are
not re-wrapped. -/

/-- A processed search result, as assembled by `search_medical_literature`
(lines 65-72); every field is always populated. -/
structure RawResult where
  title : String
  url : String
  content : String
  source_type : String
  publication_date : String
  relevance_score : ℚ
deriving DecidableEq

/-- One record of the JSON response of the search provider; every field is read
through `dict.get` with a default, so each may be absent. -/
structure ApiResult where
  title : Option String
  url : Option String
  excerpts : Option (List String)
  content : Option String
  date : Option String
  score : Option ℚ

/-- The JSON body of a search response; `data.get('results', [])`. -/
structure ApiBody where
  results : List ApiResult

/-- The JSON payload sent to the search endpoint (lines 42-48). -/
structure SearchPayload where
  objective : String
  search_queries : List String
  processor : String
  max_results : Nat
  max_chars_per_result : Nat
deriving DecidableEq

/-- Outcome of the single `requests.post` call. -/
inductive HttpOutcome where
  | response (status : Nat) (body : ApiBody)
  | timeout
  | connError (msg : String)

/-- Lines 60-72: build one processed result record from one API record. An
empty excerpt list is falsy in Python, so the join falls back to the single
`content` field. -/
def processApiResult (r : ApiResult) : RawResult :=
  { title := r.title.getD "Medical Literature",
    url := r.url.getD "",
    content := if (r.excerpts.getD []) ≠ [] then String.intercalate " " (r.excerpts.getD [])
               else r.content.getD "",
    source_type := determine_source_type (r.url.getD ""),
    publication_date := r.date.getD "Unknown",
    relevance_score := r.score.getD 0 }

/-- Lines 56-76: the result-collection loop, keeping only records whose
stripped content length exceeds 50 characters. -/
def collectResults : List ApiResult → List RawResult
  | [] => []
  | r :: rest =>
    if (processApiResult r).content.trim.length > 50
    then processApiResult r :: collectResults rest
    else collectResults rest

/-- Lines 36-40: the three query variants built from the input. -/
def searchQueryVariants (query : String) : List String :=
  [query, query ++ " medical", query ++ " clinical"]

/-- Lines 42-48: the request payload; only the first two variants are sent. -/
def buildPayload (query : String) (max_results : Nat) : SearchPayload :=
  { objective := "Find medical information about: " ++ query,
    search_queries := (searchQueryVariants query).take 2,
    processor := "base",
    max_results := max_results,
    max_chars_per_result := 1500 }

/-- Embedding of `search_medical_literature` (`src/services/parallel_search.py`
lines 20-97). The default of `max_results` in the source is 10. -/
def search_medical_literature (api_key : String)
    (http : SearchPayload → HttpOutcome) (query : String) (max_results : Nat) :
    Except String (List RawResult) × List SearchPayload :=
  if api_key = "" then
    (Except.error "Search failed: Parallel.ai API key not configured", [])
  else
    match http (buildPayload query max_results) with
    | HttpOutcome.response status body =>
      if status = 200 then
        (Except.ok (collectResults body.results), [buildPayload query max_results])
      else if status = 401 then
        (Except.error "Search failed: Invalid Parallel.ai API key",
         [buildPayload query max_results])
      else if status = 429 then
        (Except.error "Search failed: Parallel.ai API rate limit exceeded",
         [buildPayload query max_results])
      else
        (Except.error ("Search failed: Search service error: " ++ toString status),
         [buildPayload query max_results])
    | HttpOutcome.timeout =>
      (Except.error "Search request timed out. Please try again with a simpler query.",
       [buildPayload query max_results])
    | HttpOutcome.connError _ =>
      (Except.error "Unable to connect to search service. Please try again.",
       [buildPayload query max_results])

/-! Facts about the search client. -/

theorem collectResults_content (rs : List ApiResult) :
    ∀ r ∈ collectResults rs, r.content.trim.length > 50 := by
  induction rs with
  | nil => intro r hr; cases hr
  | cons a rest ih =>
    intro r hr
    unfold collectResults at hr
    by_cases h : (processApiResult a).content.trim.length > 50
    · rw [if_pos h] at hr
      rcases List.mem_cons.mp hr with h1 | h2
      · rw [h1]; exact h
      · exact ih r h2
    · rw [if_neg h] at hr
      exact ih r hr

theorem search_ok_characterization (api_key : String)
    (http : SearchPayload → HttpOutcome) (query : String) (max_results : Nat)
    (l : List RawResult)
    (hl : (search_medical_literature api_key http query max_results).1 = Except.ok l) :
    api_key ≠ ""
    ∧ ∃ body, http (buildPayload query max_results) = HttpOutcome.response 200 body
        ∧ l = collectResults body.results := by
  unfold search_medical_literature at hl
  by_cases hkey : api_key = ""
  · rw [if_pos hkey] at hl
    cases hl
  · rw [if_neg hkey] at hl
    refine ⟨hkey, ?_⟩
    cases hhttp : http (buildPayload query max_results) with
    | response status body =>
      rw [hhttp] at hl
      simp only [] at hl
      by_cases h200 : status = 200
      · subst h200
        rw [if_pos rfl] at hl
        exact ⟨body, rfl, (Except.ok.inj hl).symm⟩
      · rw [if_neg h200] at hl
        by_cases h401 : status = 401
        · rw [if_pos h401] at hl; cases hl
        · rw [if_neg h401] at hl
          by_cases h429 : status = 429
          · rw [if_pos h429] at hl; cases hl
          · rw [if_neg h429] at hl; cases hl
    | timeout => rw [hhttp] at hl; cases hl
    | connError m => rw [hhttp] at hl; cases hl

theorem search_error_messages (api_key : String)
    (http : SearchPayload → HttpOutcome) (query : String) (max_results : Nat)
    (e : String)
    (he : (search_medical_literature api_key http query max_results).1 = Except.error e) :
    e = "Search failed: Parallel.ai API key not configured"
    ∨ e = "Search failed: Invalid Parallel.ai API key"
    ∨ e = "Search failed: Parallel.ai API rate limit exceeded"
    ∨ (∃ status : Nat, e = "Search failed: Search service error: " ++ toString status)
    ∨ e = "Search request timed out. Please try again with a simpler query."
    ∨ e = "Unable to connect to search service. Please try again." := by
  unfold search_medical_literature at he
  by_cases hkey : api_key = ""
  · rw [if_pos hkey] at he
    cases he
    exact Or.inl rfl
  · rw [if_neg hkey] at he
    cases hhttp : http (buildPayload query max_results) with
    | response status body =>
      rw [hhttp] at he
      simp only [] at he
      by_cases h200 : status = 200
      · rw [if_pos h200] at he; cases he
      · rw [if_neg h200] at he
        by_cases h401 : status = 401
        · rw [if_pos h401] at he
          exact Or.inr (Or.inl (Except.error.inj he).symm)
        · rw [if_neg h401] at he
          by_cases h429 : status = 429
          · rw [if_pos h429] at he
            exact Or.inr (Or.inr (Or.inl (Except.error.inj he).symm))
          · rw [if_neg h429] at he
            exact Or.inr (Or.inr (Or.inr (Or.inl ⟨status, (Except.error.inj he).symm⟩)))
    | timeout =>
      rw [hhttp] at he
      exact Or.inr (Or.inr (Or.inr (Or.inr (Or.inl (Except.error.inj he).symm))))
    | connError m =>
      rw [hhttp] at he
      exact Or.inr (Or.inr (Or.inr (Or.inr (Or.inr (Except.error.inj he).symm))))

theorem rate_ne_generic (status : Nat) :
    "Search failed: Parallel.ai API rate limit exceeded"
      ≠ "Search failed: Search service error: " ++ toString status := by
  intro h
  have hd : ("Search failed: Parallel.ai API rate limit exceeded").data
      = ("Search failed: Search service error: ").data ++ (toString status).data := by
    rw [h]
    exact String.data_append _ _
  have hP : (("Search failed: Parallel.ai API rate limit exceeded").data)[15]? = some 'P' := rfl
  rw [hd, List.getElem?_append_left (by decide)] at hP
  exact absurd hP (by decide)

/-- C6: each failure condition surfaces as its own error: a missing credential
fails before any request is sent (the sent-payload list is empty), HTTP 401
yields the authentication message, HTTP 429 yields the rate-limit message, any
other non-200 status yields the generic service message carrying the status
code, timeout and connection failure have their own messages; the rate-limit
message differs from every generic service message, the five fixed messages are
pairwise distinct, and at most one request is ever sent (no retry). -/
theorem C6_distinct_error_surfacing (api_key : String)
    (http : SearchPayload → HttpOutcome) (query : String) (max_results : Nat) :
    (api_key = "" →
      search_medical_literature api_key http query max_results
        = (Except.error "Search failed: Parallel.ai API key not configured", []))
    ∧ (∀ body, api_key ≠ "" →
        http (buildPayload query max_results) = HttpOutcome.response 401 body →
        (search_medical_literature api_key http query max_results).1
          = Except.error "Search failed: Invalid Parallel.ai API key")
    ∧ (∀ body, api_key ≠ "" →
        http (buildPayload query max_results) = HttpOutcome.response 429 body →
        (search_medical_literature api_key http query max_results).1
          = Except.error "Search failed: Parallel.ai API rate limit exceeded")
    ∧ (∀ status : Nat, ∀ body, api_key ≠ "" → status ≠ 200 → status ≠ 401 → status ≠ 429 →
        http (buildPayload query max_results) = HttpOutcome.response status body →
        (search_medical_literature api_key http query max_results).1
          = Except.error ("Search failed: Search service error: " ++ toString status))
    ∧ (api_key ≠ "" → http (buildPayload query max_results) = HttpOutcome.timeout →
        (search_medical_literature api_key http query max_results).1
          = Except.error "Search request timed out. Please try again with a simpler query.")
    ∧ (∀ msg, api_key ≠ "" →
        http (buildPayload query max_results) = HttpOutcome.connError msg →
        (search_medical_literature api_key http query max_results).1
          = Except.error "Unable to connect to search service. Please try again.")
    ∧ (∀ status : Nat, "Search failed: Parallel.ai API rate limit exceeded"
          ≠ "Search failed: Search service error: " ++ toString status)
    ∧ List.Pairwise (fun a b => a ≠ b)
        ["Search failed: Parallel.ai API key not configured",
         "Search failed: Invalid Parallel.ai API key",
         "Search failed: Parallel.ai API rate limit exceeded",
         "Search request timed out. Please try again with a simpler query.",
         "Unable to connect to search service. Please try again."]
    ∧ (search_medical_literature api_key http query max_results).2.length ≤ 1 := by
  refine ⟨?_, ?_, ?_, ?_, ?_, ?_, rate_ne_generic, by decide, ?_⟩
  · intro hkey
    unfold search_medical_literature
    rw [if_pos hkey]
  · intro body hkey hhttp
    unfold search_medical_literature
    rw [if_neg hkey, hhttp]
    rfl
  · intro body hkey hhttp
    unfold search_medical_literature
    rw [if_neg hkey, hhttp]
    rfl
  · intro status body hkey h200 h401 h429 hhttp
    unfold search_medical_literature
    rw [if_neg hkey, hhttp]
    simp only []
    rw [if_neg h200, if_neg h401, if_neg h429]
  · intro hkey hhttp
    unfold search_medical_literature
    rw [if_neg hkey, hhttp]
  · intro msg hkey hhttp
    unfold search_medical_literature
    rw [if_neg hkey, hhttp]
  · unfold search_medical_literature
    by_cases hkey : api_key = ""
    · rw [if_pos hkey]
      simp
    · rw [if_neg hkey]
      cases http (buildPayload query max_results) with
      | response status body =>
        simp only []
        split_ifs <;> simp
      | timeout => simp
      | connError m => simp

/-- The empty parsed response body. -/
def apiBodyEmpty : ApiBody := ⟨[]⟩

/-- An HTTP oracle answering 401 to every request. -/
def http401 : SearchPayload → HttpOutcome := fun _ => HttpOutcome.response 401 apiBodyEmpty

/-- An HTTP oracle answering 429 to every request. -/
def http429 : SearchPayload → HttpOutcome := fun _ => HttpOutcome.response 429 apiBodyEmpty

/-- An HTTP oracle answering 500 to every request. -/
def http500 : SearchPayload → HttpOutcome := fun _ => HttpOutcome.response 500 apiBodyEmpty

/-- An HTTP oracle that times out on every request. -/
def httpTimedOut : SearchPayload → HttpOutcome := fun _ => HttpOutcome.timeout

/-- An HTTP oracle that fails to connect on every request. -/
def httpConnRefused : SearchPayload → HttpOutcome := fun _ => HttpOutcome.connError "refused"

/-- An HTTP oracle answering 200 with an empty result list. -/
def httpEmpty200 : SearchPayload → HttpOutcome := fun _ => HttpOutcome.response 200 apiBodyEmpty

/-- Witness for C6 at concrete oracles: each scenario produces its distinct
message, and the missing-credential case sends nothing. -/
theorem C6_distinct_error_surfacing_witness :
    search_medical_literature "" http401 "q" 10
      = (Except.error "Search failed: Parallel.ai API key not configured", [])
    ∧ (search_medical_literature "k" http401 "q" 10).1
      = Except.error "Search failed: Invalid Parallel.ai API key"
    ∧ (search_medical_literature "k" http429 "q" 10).1
      = Except.error "Search failed: Parallel.ai API rate limit exceeded"
    ∧ (search_medical_literature "k" http500 "q" 10).1
      = Except.error ("Search failed: Search service error: " ++ toString (500 : Nat))
    ∧ (search_medical_literature "k" httpTimedOut "q" 10).1
      = Except.error "Search request timed out. Please try again with a simpler query."
    ∧ (search_medical_literature "k" httpConnRefused "q" 10).1
      = Except.error "Unable to connect to search service. Please try again."
    ∧ "Search failed: Parallel.ai API rate limit exceeded"
      ≠ "Search failed: Search service error: " ++ toString (500 : Nat) :=
  ⟨(C6_distinct_error_surfacing "" http401 "q" 10).1 rfl,
   (C6_distinct_error_surfacing "k" http401 "q" 10).2.1 apiBodyEmpty (by decide) rfl,
   (C6_distinct_error_surfacing "k" http429 "q" 10).2.2.1 apiBodyEmpty (by decide) rfl,
   (C6_distinct_error_surfacing "k" http500 "q" 10).2.2.2.1 500 apiBodyEmpty
     (by decide) (by decide) (by decide) (by decide) rfl,
   (C6_distinct_error_surfacing "k" httpTimedOut "q" 10).2.2.2.2.1 (by decide) rfl,
   (C6_distinct_error_surfacing "k" httpConnRefused "q" 10).2.2.2.2.2.1 "refused"
     (by decide) rfl,
   (C6_distinct_error_surfacing "k" http500 "q" 10).2.2.2.2.2.2.1 500⟩

/-- C8: for every query the function builds the fixed variant list and sends a
single network payload whose `search_queries` field is exactly the first two
variants: the original query and the original query with the domain-context
term appended. -/
theorem C8_two_query_variants (api_key : String)
    (http : SearchPayload → HttpOutcome) (query : String) (max_results : Nat)
    (hkey : api_key ≠ "") :
    (search_medical_literature api_key http query max_results).2
        = [buildPayload query max_results]
    ∧ (buildPayload query max_results).search_queries = (searchQueryVariants query).take 2
    ∧ (searchQueryVariants query).take 2 = [query, query ++ " medical"]
    ∧ (buildPayload query max_results).search_queries.length = 2 := by
  refine ⟨?_, rfl, rfl, rfl⟩
  unfold search_medical_literature
  rw [if_neg hkey]
  cases http (buildPayload query max_results) with
  | response status body =>
    simp only []
    split_ifs <;> rfl
  | timeout => rfl
  | connError m => rfl

/-- Witness for C8 at a concrete query: exactly one payload is sent and it
carries the two expected variant strings. -/
theorem C8_two_query_variants_witness :
    (search_medical_literature "k" httpTimedOut "diabetes" 10).2
        = [buildPayload "diabetes" 10]
    ∧ (buildPayload "diabetes" 10).search_queries = ["diabetes", "diabetes medical"] := by
  refine ⟨(C8_two_query_variants "k" httpTimedOut "diabetes" 10 (by decide)).1, ?_⟩
  rw [(C8_two_query_variants "k" httpTimedOut "diabetes" 10 (by decide)).2.1,
      (C8_two_query_variants "k" httpTimedOut "diabetes" 10 (by decide)).2.2.1]
  decide

/-- C2 counterexample: a successful (HTTP 200) search whose response carries no
qualifying records makes `search_medical_literature` return an empty sequence
without raising, so the dichotomy of a non-empty result sequence versus a
raised error is false for the non-empty 8-character query `"headache"`. -/
theorem C2_search_counterexample :
    (search_medical_literature "k" httpEmpty200 "headache" 10).1 = Except.ok []
    ∧ ¬ ((∃ l, (search_medical_literature "k" httpEmpty200 "headache" 10).1
            = Except.ok l ∧ l ≠ [])
        ∨ (∃ e, (search_medical_literature "k" httpEmpty200 "headache" 10).1
            = Except.error e)) := by
  have h : (search_medical_literature "k" httpEmpty200 "headache" 10).1 = Except.ok [] := rfl
  refine ⟨h, ?_⟩
  rintro (⟨l, hl, hne⟩ | ⟨e, he⟩)
  · rw [h] at hl
    exact hne (Except.ok.inj hl).symm
  · rw [h] at he
    cases he

/-- C2 (amended): for every non-empty query of at most 200 characters, when
`search_medical_literature` returns a (possibly empty) sequence, every returned
record has stripped content length above the 50-character threshold and all
fields populated (by the record type); when it raises, the error is one of the
six defined kinds. -/
theorem C2_search_filtered_or_defined_error (api_key : String)
    (http : SearchPayload → HttpOutcome) (query : String) (max_results : Nat)
    (hq : query ≠ "") (hlen : query.length ≤ 200) :
    (∀ l, (search_medical_literature api_key http query max_results).1 = Except.ok l →
        ∀ r ∈ l, r.content.trim.length > 50)
    ∧ (∀ e, (search_medical_literature api_key http query max_results).1 = Except.error e →
        e = "Search failed: Parallel.ai API key not configured"
        ∨ e = "Search failed: Invalid Parallel.ai API key"
        ∨ e = "Search failed: Parallel.ai API rate limit exceeded"
        ∨ (∃ status : Nat, e = "Search failed: Search service error: " ++ toString status)
        ∨ e = "Search request timed out. Please try again with a simpler query."
        ∨ e = "Unable to connect to search service. Please try again.") := by
  constructor
  · intro l hl r hr
    obtain ⟨-, body, -, hcoll⟩ :=
      search_ok_characterization api_key http query max_results l hl
    rw [hcoll] at hr
    exact collectResults_content body.results r hr
  · intro e he
    exact search_error_messages api_key http query max_results e he

/-- A response record whose joined excerpt content is 60 characters long. -/
def apiResultLong : ApiResult :=
  { title := some "Study", url := some "https://nejm.org/a",
    excerpts := some [String.mk (List.replicate 60 'x')],
    content := none, date := none, score := some 1 }

/-- An HTTP oracle answering 200 with one long-content record. -/
def httpOneLong : SearchPayload → HttpOutcome :=
  fun _ => HttpOutcome.response 200 ⟨[apiResultLong]⟩

/-- Witness for C2 (amended) at a concrete oracle: the query bounds hold and
every record of the returned sequence passes the content threshold. -/
theorem C2_search_filtered_or_defined_error_witness :
    ("headache" ≠ "" ∧ "headache".length ≤ 200)
    ∧ ∀ r ∈ collectResults (⟨[apiResultLong]⟩ : ApiBody).results,
        r.content.trim.length > 50 :=
  ⟨⟨by decide, by decide⟩,
   (C2_search_filtered_or_defined_error "k" httpOneLong "headache" 10
      (by decide) (by decide)).1 (collectResults (⟨[apiResultLong]⟩ : ApiBody).results) rfl⟩

/-! Model of the enrichment loops of `src/app.py`. The two enrichment calls are
abstracted as possibly-raising functions (`Except String String`), reflecting
the defensive per-result `try/except` of both routes; the embedded service
methods themselves are total, so their instantiation always returns `ok`.
The `result.get('source_type', ...)` and `result.get('publication_date', ...)`
defaults of the routes never fire, because the search client populates every
field of each `RawResult` it returns. -/

/-- One enriched record of the `search` route (lines 61-69 and 74-82). -/
structure EnhancedResult where
  title : String
  url : String
  content : String
  summary : String
  credibility_score : String
  source_type : String
  publication_date : String
deriving DecidableEq

/-- One enriched record of the `api_search` route (lines 114-120). -/
structure ApiEnhancedResult where
  title : String
  url : String
  summary : String
  credibility_score : String
  source_type : String
deriving DecidableEq

/-- The processed-result dict as read by `assess_medical_credibility`. -/
def sourceInfoOfRaw (r : RawResult) : SourceInfo :=
  { title := some r.title, url := some r.url, source_type := some r.source_type }

/-- One iteration of the `search` route loop (lines 55-82): attempt both
enrichment calls (summarize first; if it raises, assess is never reached); if
either raises, keep the result with the sentinel summary and credibility
(lines 74-82). Both branches render the truncated content copy. -/
def enhanceOne (summarize : String → String → Except String String)
    (assess : RawResult → Except String String) (query : String) (r : RawResult) :
    EnhancedResult :=
  match summarize r.content query, assess r with
  | Except.ok summary, Except.ok credibility_score =>
    { title := r.title, url := r.url, content := truncateContent r.content,
      summary := summary, credibility_score := credibility_score,
      source_type := r.source_type, publication_date := r.publication_date }
  | _, _ =>
    { title := r.title, url := r.url, content := truncateContent r.content,
      summary := "Summary unavailable", credibility_score := "Unknown",
      source_type := r.source_type, publication_date := r.publication_date }

/-- The `search` route loop over all results (lines 54-82). -/
def processSearchResults (summarize : String → String → Except String String)
    (assess : RawResult → Except String String) (query : String)
    (results : List RawResult) : List EnhancedResult :=
  results.map (enhanceOne summarize assess query)

/-- One iteration of the `api_search` route loop (lines 110-123): on success
build the record; if either enrichment call raises, `continue` drops it. -/
def apiEnhanceOne (summarize : String → String → Except String String)
    (assess : RawResult → Except String String) (query : String) (r : RawResult) :
    Option ApiEnhancedResult :=
  match summarize r.content query, assess r with
  | Except.ok summary, Except.ok credibility_score =>
    some { title := r.title, url := r.url, summary := summary,
           credibility_score := credibility_score, source_type := r.source_type }
  | _, _ => none

/-- The `api_search` route loop (lines 108-123), capped at the first 5 results. -/
def processApiSearchResults (summarize : String → String → Except String String)
    (assess : RawResult → Except String String) (query : String)
    (results : List RawResult) : List ApiEnhancedResult :=
  (results.take 5).filterMap (apiEnhanceOne summarize assess query)

theorem apiEnhanceOne_none_of_fail (summarize : String → String → Except String String)
    (assess : RawResult → Except String String) (query : String) (r : RawResult)
    (hfail : (∃ e, summarize r.content query = Except.error e)
      ∨ (∃ e, assess r = Except.error e)) :
    apiEnhanceOne summarize assess query r = none := by
  unfold apiEnhanceOne
  rcases hfail with ⟨e, he⟩ | ⟨e, he⟩
  · rw [he]
  · cases hs : summarize r.content query with
    | ok s => rw [he]
    | error s => rfl

/-- C1 (amended): in the `search` route pipeline every result is kept — the
output has the length of the input and its i-th record is the enrichment of the
i-th input — and a result for which either enrichment call raises is kept with
the fixed sentinels `"Summary unavailable"` and `"Unknown"`. In the
`api_search` route pipeline, however, a result whose enrichment raises is
dropped: the output equals that of the input with the failing result removed
(the surviving results keep their input order). -/
theorem C1_pipeline_failure_isolation
    (summarize : String → String → Except String String)
    (assess : RawResult → Except String String) (query : String) :
    (∀ results : List RawResult,
        (processSearchResults summarize assess query results).length = results.length)
    ∧ (∀ results : List RawResult, ∀ i, ∀ hi : i < results.length,
        ∀ hi2 : i < (processSearchResults summarize assess query results).length,
        (processSearchResults summarize assess query results).get ⟨i, hi2⟩
          = enhanceOne summarize assess query (results.get ⟨i, hi⟩))
    ∧ (∀ r : RawResult,
        ((∃ e, summarize r.content query = Except.error e)
          ∨ (∃ e, assess r = Except.error e)) →
        enhanceOne summarize assess query r
          = { title := r.title, url := r.url, content := truncateContent r.content,
              summary := "Summary unavailable", credibility_score := "Unknown",
              source_type := r.source_type, publication_date := r.publication_date })
    ∧ (∀ (pre post : List RawResult) (r : RawResult),
        (pre ++ r :: post).length ≤ 5 →
        ((∃ e, summarize r.content query = Except.error e)
          ∨ (∃ e, assess r = Except.error e)) →
        processApiSearchResults summarize assess query (pre ++ r :: post)
          = processApiSearchResults summarize assess query (pre ++ post)) := by
  refine ⟨?_, ?_, ?_, ?_⟩
  · intro results
    simp [processSearchResults]
  · intro results i hi hi2
    simp [processSearchResults]
  · intro r hfail
    unfold enhanceOne
    rcases hfail with ⟨e, he⟩ | ⟨e, he⟩
    · rw [he]
    · cases hs : summarize r.content query with
      | ok s => rw [he]
      | error s => rfl
  · intro pre post r hlen hfail
    unfold processApiSearchResults
    rw [List.take_of_length_le hlen,
        List.take_of_length_le (by simp only [List.length_append, List.length_cons] at hlen ⊢; omega),
        List.filterMap_append, List.filterMap_append, List.filterMap_cons,
        apiEnhanceOne_none_of_fail summarize assess query r hfail]

/-- A concrete processed search result used as pipeline input. -/
def rawResultSample : RawResult :=
  { title := "Study", url := "https://nejm.org/a",
    content := String.mk (List.replicate 60 'x'),
    source_type := "NEJM", publication_date := "2024", relevance_score := 1 }

/-- A summarize enricher that raises on every input. -/
def summarizeRaises : String → String → Except String String :=
  fun _ _ => Except.error "raised"

/-- An assess enricher that succeeds on every input. -/
def assessOk : RawResult → Except String String := fun _ => Except.ok "High"

/-- C1 counterexample: in the `api_search` pipeline (cited by the claim) a
result whose summarize call raises is dropped by `continue` rather than kept
with sentinel values: the output for a one-element input is empty, so the
failing result is not in the output sequence. -/
theorem C1_counterexample_api_drops_failed_result :
    processApiSearchResults summarizeRaises assessOk "q" [rawResultSample] = []
    ∧ (processApiSearchResults summarizeRaises assessOk "q" [rawResultSample]).length ≠ 1 :=
  ⟨rfl, by decide⟩

/-- Witness for C1 (amended) at concrete inputs: the failing result is kept
with both sentinels by the `search` pipeline (pointwise at index 0) and dropped
by the `api_search` pipeline. -/
theorem C1_pipeline_failure_isolation_witness :
    (processSearchResults summarizeRaises assessOk "q" [rawResultSample]).get
        ⟨0, Nat.one_pos⟩
      = enhanceOne summarizeRaises assessOk "q" ([rawResultSample].get ⟨0, Nat.one_pos⟩)
    ∧ enhanceOne summarizeRaises assessOk "q" rawResultSample
      = { title := rawResultSample.title, url := rawResultSample.url,
          content := truncateContent rawResultSample.content,
          summary := "Summary unavailable", credibility_score := "Unknown",
          source_type := rawResultSample.source_type,
          publication_date := rawResultSample.publication_date }
    ∧ processApiSearchResults summarizeRaises assessOk "q" ([] ++ rawResultSample :: [])
      = processApiSearchResults summarizeRaises assessOk "q" ([] ++ []) :=
  ⟨(C1_pipeline_failure_isolation summarizeRaises assessOk "q").2.1
      [rawResultSample] 0 Nat.one_pos Nat.one_pos,
   (C1_pipeline_failure_isolation summarizeRaises assessOk "q").2.2.1
      rawResultSample (Or.inl ⟨"raised", rfl⟩),
   (C1_pipeline_failure_isolation summarizeRaises assessOk "q").2.2.2
      [] [] rawResultSample (by decide) (Or.inl ⟨"raised", rfl⟩)⟩

/-- The summarize enricher exactly as the routes use it (line 58): the embedded
`generate_medical_summary` is total, so the call always returns `ok`. -/
def summarizeViaService (svc : OpenAIService) : String → String → Except String String :=
  fun content query_context => Except.ok (generate_medical_summary svc content query_context).1

/-- The credibility enricher exactly as the routes use it (line 59). -/
def assessViaService (svc : OpenAIService) (parse : String → Except String CredJson) :
    RawResult → Except String String :=
  fun r => Except.ok (assess_medical_credibility svc parse (sourceInfoOfRaw r)).1

theorem take3000_idem (c : String) : take3000 (take3000 c) = take3000 c := by
  unfold take3000
  have hdata : (String.mk (c.data.take 3000)).data = c.data.take 3000 := rfl
  rw [hdata, List.take_take, Nat.min_self]

theorem summaryPrompt_depends_on_first_3000 (c q : String) :
    summaryPrompt c q = summaryPrompt (take3000 c) q := by
  unfold summaryPrompt
  rw [take3000_idem]

/-- C7: the enrichment step hands the summarizer the full, untruncated content:
the record built from `r` carries the summary of `r.content` itself while its
rendered `content` field is the 500-character display truncation; inside
`generate_medical_summary` the single issued request embeds the content capped
at its first 3000 characters (the prompt is unchanged by pre-capping the
content at 3000), and the display truncation never reaches the summarizer. -/
theorem C7_summarizer_sees_full_content (svc : OpenAIService)
    (parse : String → Except String CredJson) (query : String) (r : RawResult)
    (call : ChatRequest → ChatOutcome) (hsvc : svc.client = some call) :
    enhanceOne (summarizeViaService svc) (assessViaService svc parse) query r
      = { title := r.title, url := r.url, content := truncateContent r.content,
          summary := (generate_medical_summary svc r.content query).1,
          credibility_score := (assess_medical_credibility svc parse (sourceInfoOfRaw r)).1,
          source_type := r.source_type, publication_date := r.publication_date }
    ∧ (generate_medical_summary svc r.content query).2 = [summaryRequest r.content query]
    ∧ (summaryRequest r.content query).user = summaryPrompt r.content query
    ∧ summaryPrompt r.content query = summaryPrompt (take3000 r.content) query := by
  refine ⟨rfl, ?_, rfl, summaryPrompt_depends_on_first_3000 r.content query⟩
  simp only [generate_medical_summary, hsvc]
  cases hc : call (summaryRequest r.content query) with
  | failure m => rfl
  | success m => rfl

/-- Witness for C7 at a concrete service, parse oracle, query and result. -/
theorem C7_summarizer_sees_full_content_witness :
    enhanceOne (summarizeViaService svcText) (assessViaService svcText parseHigh) "q"
        rawResultSample
      = { title := rawResultSample.title, url := rawResultSample.url,
          content := truncateContent rawResultSample.content,
          summary := (generate_medical_summary svcText rawResultSample.content "q").1,
          credibility_score :=
            (assess_medical_credibility svcText parseHigh (sourceInfoOfRaw rawResultSample)).1,
          source_type := rawResultSample.source_type,
          publication_date := rawResultSample.publication_date }
    ∧ (generate_medical_summary svcText rawResultSample.content "q").2
      = [summaryRequest rawResultSample.content "q"]
    ∧ summaryPrompt rawResultSample.content "q"
      = summaryPrompt (take3000 rawResultSample.content) "q" :=
  ⟨(C7_summarizer_sees_full_content svcText parseHigh "q" rawResultSample
      chatReturnsText rfl).1,
   (C7_summarizer_sees_full_content svcText parseHigh "q" rawResultSample
      chatReturnsText rfl).2.1,
   (C7_summarizer_sees_full_content svcText parseHigh "q" rawResultSample
      chatReturnsText rfl).2.2.2⟩
